import Mathlib

/-!
Shallow embedding of the StockApp commerce core
(src/app/src/store/index.ts together with the page-level handlers in
src/app/src/pages/POS.tsx, src/app/src/pages/Stock.tsx).

Numbers: every numeric field in the source is a JS number.  Quantities are
integers in the application (product quantity and minQuantity are created
via parseInt, cart quantities start at 1 and change by integer deltas,
stock adjustments use parseInt), so they are modelled as Int.  Monetary
amounts (prices, totals, VAT, debt amounts) are modelled as Rat.
Presentation-only fields (names, barcodes, images, timestamps, customer
references) are omitted; randomly generated ids are passed as explicit
String parameters.
-/

namespace StockApp

/-- Product (src/types, interface Product); presentation-only fields omitted. -/
structure Product where
  id : String
  salePrice : Rat
  purchasePrice : Rat
  quantity : Int
  minQuantity : Int
deriving Repr, DecidableEq

/-- SaleItem (src/types, interface SaleItem); the optional embedded product
reference is omitted. -/
structure SaleItem where
  id : String
  productId : String
  quantity : Int
  unitPrice : Rat
  total : Rat
deriving Repr, DecidableEq

/-- Sale status: 'completed' | 'pending' | 'cancelled'. -/
inductive SaleStatus where
  | completed
  | pending
  | cancelled
deriving Repr, DecidableEq

/-- Payment method: 'cash' | 'card' | 'transfer' | 'mixed'. -/
inductive PaymentMethod where
  | cash
  | card
  | transfer
  | mixed
deriving Repr, DecidableEq

/-- Sale (src/types, interface Sale); customer/seller references and
timestamps omitted. -/
structure Sale where
  id : String
  invoiceNumber : String
  items : List SaleItem
  subtotal : Rat
  vatAmount : Rat
  total : Rat
  paymentMethod : PaymentMethod
  paidAmount : Rat
  change : Rat
  status : SaleStatus
deriving Repr, DecidableEq

/-- Debt status: 'pending' | 'partial' | 'paid'; the source's 'partial' is
named partialPaid here. -/
inductive DebtStatus where
  | pending
  | partialPaid
  | paid
deriving Repr, DecidableEq

/-- DebtPayment (src/types, interface DebtPayment); timestamp omitted. -/
structure DebtPayment where
  id : String
  debtId : String
  amount : Rat
  paymentMethod : String
deriving Repr, DecidableEq

/-- Debt (src/types, interface Debt). -/
structure Debt where
  id : String
  customerId : String
  amount : Rat
  paid : Rat
  remaining : Rat
  status : DebtStatus
  payments : List DebtPayment
deriving Repr, DecidableEq

/-- Movement direction: 'in' | 'out' (source field name `type`). -/
inductive StockDirection where
  | stockIn
  | stockOut
deriving Repr, DecidableEq

/-- StockMovement (src/types, interface StockMovement); timestamp omitted. -/
structure StockMovement where
  id : String
  productId : String
  type : StockDirection
  quantity : Int
  reason : String
  userId : String
deriving Repr, DecidableEq

/-- Errors surfaced by the page-level handlers (toast.error calls). -/
inductive AppError where
  | insufficientStock
  | emptyCart
  | insufficientPaid
  | insufficientQuantity
  | missingFields
deriving Repr, DecidableEq

/-! ## Products store (store/index.ts, useProductsStore) -/

/-- updateProduct restricted to the quantity field, the only shape of call
made from addSale (store/index.ts 366) and handleAdjustment (Stock.tsx 72):
maps over the product list replacing the matching product's quantity. -/
def updateProductQuantity (products : List Product) (id : String) (q : Int) :
    List Product :=
  products.map fun p => if p.id = id then { p with quantity := q } else p

/-- getLowStockProducts (store/index.ts 222-225):
products.filter(p => p.quantity <= p.minQuantity). -/
def getLowStockProducts (products : List Product) : List Product :=
  products.filter fun p => decide (p.quantity ≤ p.minQuantity)

/-! ## Sales store (store/index.ts, useSalesStore) -/

/-- String.padStart(width, c) as used for invoice numbers. -/
def padStart (s : String) (width : Nat) (c : Char) : String :=
  String.mk (List.replicate (width - s.length) c) ++ s

/-- The `count` computed by generateInvoiceNumber (store/index.ts 433):
sales.length + 1, counting every sale in the list whatever its status. -/
def invoiceSeqComponent (sales : List Sale) : Nat :=
  sales.length + 1

/-- generateInvoiceNumber (store/index.ts 427-435); year and month are read
from the clock and passed here as parameters. -/
def generateInvoiceNumber (sales : List Sale) (year month : Nat) : String :=
  "INV-" ++ toString year ++ padStart (toString month) 2 '0' ++ "-" ++
    padStart (toString (invoiceSeqComponent sales)) 4 '0'

/-- The argument of addSale: Omit<Sale, 'id' | 'invoiceNumber' | 'createdAt'>. -/
structure SaleData where
  items : List SaleItem
  subtotal : Rat
  vatAmount : Rat
  total : Rat
  paymentMethod : PaymentMethod
  paidAmount : Rat
  change : Rat
  status : SaleStatus
deriving Repr, DecidableEq

/-- addSale (store/index.ts 350-372): prepends the new sale (with a freshly
generated invoice number), then for each item looks the product up in the
products snapshot captured before the loop and decrements its quantity via
updateProduct.  The lookup uses the stale snapshot (`products` is
destructured once), so the fold searches `products` while updating the
accumulator, exactly as the closure does. -/
def addSale (sales : List Sale) (products : List Product) (newSaleId : String)
    (year month : Nat) (sale : SaleData) : List Sale × List Product :=
  let invoiceNumber := generateInvoiceNumber sales year month
  let newSale : Sale :=
    { id := newSaleId
      invoiceNumber := invoiceNumber
      items := sale.items
      subtotal := sale.subtotal
      vatAmount := sale.vatAmount
      total := sale.total
      paymentMethod := sale.paymentMethod
      paidAmount := sale.paidAmount
      change := sale.change
      status := sale.status }
  let sales' := newSale :: sales
  let products' := sale.items.foldl
    (fun acc item =>
      match products.find? (fun p => p.id = item.productId) with
      | some product =>
          updateProductQuantity acc item.productId
            (product.quantity - item.quantity)
      | none => acc)
    products
  (sales', products')

/-- cancelSale (store/index.ts 373-378). -/
def cancelSale (sales : List Sale) (id : String) : List Sale :=
  sales.map fun s => if s.id = id then { s with status := .cancelled } else s

/-- addToCart (store/index.ts 379-392): merge with an existing line for the
same product (unit price kept, total recomputed) or append the new item. -/
def addToCart (cart : List SaleItem) (item : SaleItem) : List SaleItem :=
  match cart.find? (fun i => i.productId = item.productId) with
  | some _ =>
      cart.map fun i =>
        if i.productId = item.productId then
          { i with
            quantity := i.quantity + item.quantity
            total := ((i.quantity + item.quantity : Int) : Rat) * i.unitPrice }
        else i
  | none => cart ++ [item]

/-- removeFromCart (store/index.ts 393-396). -/
def removeFromCart (cart : List SaleItem) (productId : String) : List SaleItem :=
  cart.filter fun i => decide (i.productId ≠ productId)

/-- updateCartItem (store/index.ts 397-404). -/
def updateCartItem (cart : List SaleItem) (productId : String) (quantity : Int) :
    List SaleItem :=
  cart.map fun i =>
    if i.productId = productId then
      { i with quantity := quantity, total := (quantity : Rat) * i.unitPrice }
    else i

/-- getCartTotal (store/index.ts 406-409). -/
def getCartTotal (cart : List SaleItem) : Rat :=
  cart.foldl (fun total item => total + item.total) 0

/-! ## Debts store (store/index.ts, useDebtsStore) -/

/-- The payment argument of addPayment: { amount, paymentMethod, note? };
note omitted. -/
structure PaymentInput where
  amount : Rat
  paymentMethod : String
deriving Repr, DecidableEq

/-- The update applied by addPayment (store/index.ts 504-521) to the
matching debt: paid += amount, remaining = amount − paid, status from
(remaining, paid), payment record appended.  No validation of the amount. -/
def applyPayment (d : Debt) (payment : PaymentInput) (newPaymentId : String) :
    Debt :=
  let newPaid := d.paid + payment.amount
  let newRemaining := d.amount - newPaid
  { d with
    paid := newPaid
    remaining := newRemaining
    status :=
      if newRemaining ≤ 0 then .paid
      else if newPaid > 0 then .partialPaid
      else .pending
    payments := d.payments ++
      [{ id := newPaymentId
         debtId := d.id
         amount := payment.amount
         paymentMethod := payment.paymentMethod }] }

/-- addPayment (store/index.ts 501-525). -/
def addPayment (debts : List Debt) (debtId : String) (payment : PaymentInput)
    (newPaymentId : String) : List Debt :=
  debts.map fun d => if d.id = debtId then applyPayment d payment newPaymentId else d

/-! ## POS page handlers (pages/POS.tsx) -/

/-- addProductToCart (POS.tsx 83-105): rejects when the product is out of
stock or the existing cart line already holds the whole stock; otherwise
adds a quantity-1 line at the product's sale price via addToCart.  An error
leaves the cart untouched (the handler returns before calling addToCart). -/
def addProductToCart (cart : List SaleItem) (product : Product)
    (newLineId : String) : Except AppError (List SaleItem) :=
  if product.quantity ≤ 0 then .error .insufficientStock
  else
    match cart.find? (fun i => i.productId = product.id) with
    | some existingItem =>
        if existingItem.quantity ≥ product.quantity then
          .error .insufficientStock
        else
          .ok (addToCart cart
            { id := newLineId
              productId := product.id
              quantity := 1
              unitPrice := product.salePrice
              total := product.salePrice })
    | none =>
        .ok (addToCart cart
          { id := newLineId
            productId := product.id
            quantity := 1
            unitPrice := product.salePrice
            total := product.salePrice })

/-- updateQuantity (POS.tsx 108-123): the new quantity is the line's current
quantity plus delta; ≤ 0 removes the line, above stock errors, otherwise
updateCartItem.  Missing line or product returns early with no change. -/
def updateQuantity (cart : List SaleItem) (products : List Product)
    (productId : String) (delta : Int) : Except AppError (List SaleItem) :=
  match cart.find? (fun i => i.productId = productId) with
  | none => .ok cart
  | some item =>
      match products.find? (fun p => p.id = productId) with
      | none => .ok cart
      | some product =>
          let newQuantity := item.quantity + delta
          if newQuantity ≤ 0 then .ok (removeFromCart cart productId)
          else if newQuantity > product.quantity then
            .error .insufficientStock
          else .ok (updateCartItem cart productId newQuantity)

/-- completeSale (POS.tsx 125-165): rejects an empty cart, then rejects
paidAmount < total unless the method is mixed; otherwise computes
subtotal/vat/total/change (POS.tsx 126-129), calls addSale, and clears the
cart.  Returns the new sales list, the (cleared) cart and the new products. -/
def completeSale (cart : List SaleItem) (sales : List Sale)
    (products : List Product) (vatRate : Rat) (paymentMethod : PaymentMethod)
    (paidAmount : Rat) (newSaleId : String) (year month : Nat) :
    Except AppError (List Sale × List SaleItem × List Product) :=
  if cart.length = 0 then .error .emptyCart
  else
    let subtotal := getCartTotal cart
    let vatAmount := subtotal * vatRate / 100
    let total := subtotal + vatAmount
    let change := max 0 (paidAmount - total)
    if paidAmount < total ∧ paymentMethod ≠ .mixed then .error .insufficientPaid
    else
      let sp := addSale sales products newSaleId year month
        { items := cart
          subtotal := subtotal
          vatAmount := vatAmount
          total := total
          paymentMethod := paymentMethod
          paidAmount := paidAmount
          change := change
          status := .completed }
      .ok (sp.1, [], sp.2)

/-! ## Stock page handlers (pages/Stock.tsx) -/

/-- Low-stock list of the Stock page (Stock.tsx 49):
products.filter(p => p.quantity <= p.minQuantity && p.quantity > 0). -/
def lowStockProducts (products : List Product) : List Product :=
  products.filter fun p =>
    decide (p.quantity ≤ p.minQuantity) && decide (p.quantity > 0)

/-- Out-of-stock list of the Stock page (Stock.tsx 50):
products.filter(p => p.quantity === 0). -/
def outOfStockProducts (products : List Product) : List Product :=
  products.filter fun p => decide (p.quantity = 0)

/-- handleAdjustment (Stock.tsx 53-86): missing form fields are rejected; a
missing product returns early unchanged; a resulting negative quantity is
rejected; otherwise the quantity is updated and a movement prepended. -/
def handleAdjustment (products : List Product) (movements : List StockMovement)
    (selectedProduct : String) (adjustmentType : StockDirection)
    (quantity : Int) (reason : String) (newMovementId userId : String) :
    Except AppError (List Product × List StockMovement) :=
  if selectedProduct = "" ∨ reason = "" then .error .missingFields
  else
    match products.find? (fun p => p.id = selectedProduct) with
    | none => .ok (products, movements)
    | some product =>
        let newQuantity :=
          match adjustmentType with
          | .stockIn => product.quantity + quantity
          | .stockOut => product.quantity - quantity
        if newQuantity < 0 then .error .insufficientQuantity
        else
          .ok (updateProductQuantity products selectedProduct newQuantity,
            { id := newMovementId
              productId := product.id
              type := adjustmentType
              quantity := quantity
              reason := reason
              userId := userId } :: movements)

/-! ## Operation sequences -/

/-- The whole in-memory application state touched by the claims. -/
structure AppState where
  products : List Product
  cart : List SaleItem
  sales : List Sale
  movements : List StockMovement
deriving Repr, DecidableEq

/-- One user-level operation, as dispatched by the POS and Stock pages.
Randomly generated ids and the clock are carried as payload. -/
inductive AppOp where
  | addLine (productId : String) (newLineId : String)
  | updateQty (productId : String) (delta : Int)
  | removeLine (productId : String)
  | adjust (productId : String) (direction : StockDirection) (quantity : Int)
      (reason : String) (newMovementId userId : String)
  | commit (vatRate : Rat) (paymentMethod : PaymentMethod) (paidAmount : Rat)
      (newSaleId : String) (year month : Nat)
  | cancel (saleId : String)
deriving Repr, DecidableEq

/-- Dispatch one operation; a rejected operation (toast.error and early
return in the page handlers) leaves the state unchanged. -/
def stepOp (st : AppState) (op : AppOp) : AppState :=
  match op with
  | .addLine productId newLineId =>
      match st.products.find? (fun p => p.id = productId) with
      | none => st
      | some product =>
          match addProductToCart st.cart product newLineId with
          | .ok cart' => { st with cart := cart' }
          | .error _ => st
  | .updateQty productId delta =>
      match updateQuantity st.cart st.products productId delta with
      | .ok cart' => { st with cart := cart' }
      | .error _ => st
  | .removeLine productId => { st with cart := removeFromCart st.cart productId }
  | .adjust productId direction quantity reason newMovementId userId =>
      match handleAdjustment st.products st.movements productId direction
          quantity reason newMovementId userId with
      | .ok pm => { st with products := pm.1, movements := pm.2 }
      | .error _ => st
  | .commit vatRate paymentMethod paidAmount newSaleId year month =>
      match completeSale st.cart st.sales st.products vatRate paymentMethod
          paidAmount newSaleId year month with
      | .ok r => { st with sales := r.1, cart := r.2.1, products := r.2.2 }
      | .error _ => st
  | .cancel saleId => { st with sales := cancelSale st.sales saleId }

/-- Run a list of operations left to right. -/
def runOps (st : AppState) (ops : List AppOp) : AppState :=
  ops.foldl stepOp st

/-- Sale-ledger operations for the invoice-number claim: every commit
(engine-level addSale) and cancellation, with arbitrary clock values. -/
inductive SalesOp where
  | commit (data : SaleData) (newSaleId : String) (year month : Nat)
  | cancel (saleId : String)
deriving Repr, DecidableEq

/-- Run sale-ledger operations, collecting the numeric sequence component
of every invoice number generated at a commit. -/
def runSalesOps (sales : List Sale) (products : List Product) :
    List SalesOp → List Nat
  | [] => []
  | .commit data newSaleId year month :: rest =>
      invoiceSeqComponent sales ::
        runSalesOps (addSale sales products newSaleId year month data).1
          (addSale sales products newSaleId year month data).2 rest
  | .cancel saleId :: rest => runSalesOps (cancelSale sales saleId) products rest

/-- Cart-store operations (useSalesStore cart surface). -/
inductive CartOp where
  | add (item : SaleItem)
  | update (productId : String) (quantity : Int)
  | remove (productId : String)
deriving Repr, DecidableEq

/-- Run cart-store operations left to right. -/
def runCartOps (cart : List SaleItem) : List CartOp → List SaleItem
  | [] => cart
  | .add item :: rest => runCartOps (addToCart cart item) rest
  | .update productId quantity :: rest =>
      runCartOps (updateCartItem cart productId quantity) rest
  | .remove productId :: rest => runCartOps (removeFromCart cart productId) rest

/-- A cart line is well formed when its total is quantity × unit price. -/
def lineInv (i : SaleItem) : Prop := i.total = (i.quantity : Rat) * i.unitPrice

instance (i : SaleItem) : Decidable (lineInv i) := by
  unfold lineInv; infer_instance

/-! ## Definitions taken from the spec's words (for comparison only) -/

/-- Modelled from the spec (§3): the debt status as a pure function of
(paid, amount): paid ≤ 0 → pending, 0 < paid < amount → partial,
paid ≥ amount → paid, cases read in order. -/
def specDebtStatus (paid amount : Rat) : DebtStatus :=
  if paid ≤ 0 then .pending
  else if paid < amount then .partialPaid
  else .paid

/-- Modelled from the spec (§4.1): the low-stock subset, products with
0 < quantity ≤ minQuantity, in insertion order. -/
def specLowStock (products : List Product) : List Product :=
  products.filter fun p =>
    decide (0 < p.quantity) && decide (p.quantity ≤ p.minQuantity)

/-! ## Concrete fixtures used by witnesses and counterexamples -/

/-- Example product A: sale price 10, two on hand. -/
def productA : Product :=
  { id := "A", salePrice := 10, purchasePrice := 4, quantity := 2, minQuantity := 0 }

/-- Example product B: sale price 5, five on hand. -/
def productB : Product :=
  { id := "B", salePrice := 5, purchasePrice := 2, quantity := 5, minQuantity := 0 }

/-- Cart line for two units of product A at unit price 10. -/
def lineA : SaleItem :=
  { id := "l1", productId := "A", quantity := 2, unitPrice := 10, total := 20 }

/-- Cart line for one unit of product B at unit price 5. -/
def lineB : SaleItem :=
  { id := "l2", productId := "B", quantity := 1, unitPrice := 5, total := 5 }

/-- A product that is out of stock while its threshold is 5. -/
def zeroQtyProduct : Product :=
  { id := "z", salePrice := 1, purchasePrice := 1, quantity := 0, minQuantity := 5 }

/-- A debt of amount 0 on which 3 has already been paid. -/
def debtZero : Debt :=
  { id := "d1", customerId := "c1", amount := 0, paid := 3, remaining := -3,
    status := .paid, payments := [] }

/-- A fresh debt of amount 10 with no payments. -/
def debtTen : Debt :=
  { id := "d2", customerId := "c1", amount := 10, paid := 0, remaining := 10,
    status := .pending, payments := [] }

/-- An operation sequence that drives product A's stock negative: build a
two-unit cart while the stock is 2, adjust the stock down to 1, then commit. -/
def overdraftOps : List AppOp :=
  [ .addLine "A" "l1", .addLine "A" "l2",
    .adjust "A" .stockOut 1 "damage" "m1" "u1",
    .commit 20 .cash 100 "s1" 2025 10 ]

/-! ## Theorems -/

/-- Claim C1 (code_bug evidence): commit is not transactional.  With one
unit of product A on hand and a cart line asking for two units, completeSale
does not fail: it appends one sale and sets A's quantity to −1, although the
claim says the commit must fail with no sale recorded and no quantity
changed. -/
theorem commitNotTransactional :
    (completeSale [lineA] [] [{ productA with quantity := 1 }] 20
        PaymentMethod.cash 24 "s1" 2025 10).map
      (fun r => (r.1.length, r.2.2.map Product.quantity))
    = Except.ok (1, [-1]) := by
  simp [completeSale, getCartTotal, addSale, updateProductQuantity,
    lineA, productA, Except.map]
  norm_num

/-- Claim C2 (code_bug evidence): starting from a state whose quantities are
all non-negative (product A has 2 on hand), the reachable operation sequence
overdraftOps (add A to the cart twice, stock-adjust one unit out, commit)
leaves product A with quantity −1. -/
theorem quantityCanGoNegative :
    (([productA].all fun p => decide (0 ≤ p.quantity)) = true)
    ∧ (runOps { products := [productA], cart := [], sales := [], movements := [] }
          overdraftOps).products.map Product.quantity = [-1] := by
  constructor
  · decide
  · simp [runOps, overdraftOps, stepOp, completeSale, getCartTotal, addSale,
      updateProductQuantity, handleAdjustment, addProductToCart, addToCart,
      lineA, productA]
    norm_num

/-- Claim C7: committing the cart [(A, qty 2, unit 10), (B, qty 1, unit 5)]
at vatRate 20 produces a sale with subtotal 25, vat 5, total 30, and brings
product A's quantity from 2 to 0 (product B's from 5 to 4). -/
theorem concreteCommitTotals :
    (completeSale [lineA, lineB] [] [productA, productB] 20
        PaymentMethod.cash 30 "s1" 2025 10).map
      (fun r => ((r.1.map fun s => (s.subtotal, s.vatAmount, s.total)),
        r.2.2.map Product.quantity))
    = Except.ok ([(25, 5, 30)], [0, 4]) := by
  simp [completeSale, getCartTotal, addSale, updateProductQuantity,
    lineA, lineB, productA, productB, Except.map]
  norm_num

/-- Claim C9 (counterexample): the store's getLowStockProducts does not
exclude zero-quantity products: on a list holding one product with
quantity 0 and minQuantity 5 it returns that product, while the spec's
low-stock subset (0 < quantity ≤ minQuantity) is empty. -/
theorem storeLowStockIncludesZero :
    getLowStockProducts [zeroQtyProduct] = [zeroQtyProduct]
    ∧ specLowStock [zeroQtyProduct] = [] := by
  constructor
  · decide
  · decide

/-- Claim C9 (amended): the Stock page's low-stock list contains exactly the
products with 0 < quantity ≤ minQuantity and its out-of-stock list exactly
those with quantity = 0, both as order-preserving sublists of the product
list; the store's getLowStockProducts instead selects quantity ≤ minQuantity
without excluding zero. -/
theorem stockQueriesExact (products : List Product) (p : Product) :
    (p ∈ lowStockProducts products
      ↔ p ∈ products ∧ 0 < p.quantity ∧ p.quantity ≤ p.minQuantity)
    ∧ (p ∈ outOfStockProducts products ↔ p ∈ products ∧ p.quantity = 0)
    ∧ (p ∈ getLowStockProducts products
      ↔ p ∈ products ∧ p.quantity ≤ p.minQuantity)
    ∧ List.Sublist (lowStockProducts products) products
    ∧ List.Sublist (outOfStockProducts products) products := by
  refine ⟨?_, ?_, ?_, ?_, ?_⟩
  · simp [lowStockProducts, List.mem_filter, and_comm]
  · simp [outOfStockProducts, List.mem_filter]
  · simp [getLowStockProducts, List.mem_filter]
  · exact List.filter_sublist products
  · exact List.filter_sublist products

/-- Claim C3 (counterexample): on a debt of amount 0 with 3 already paid, a
recordPayment of −3 (accepted, since addPayment validates nothing) leaves
the code's status at paid (remaining = 0 ≤ 0), while the spec's status
function of (paid, amount) = (0, 0) gives pending (first case, paid ≤ 0). -/
theorem paymentStatusSpecMismatch :
    (addPayment [debtZero] "d1" { amount := -3, paymentMethod := "cash" }
        "p1").map Debt.status = [DebtStatus.paid]
    ∧ specDebtStatus (debtZero.paid + -3) debtZero.amount = DebtStatus.pending := by
  constructor
  · norm_num [addPayment, applyPayment, debtZero]
  · norm_num [specDebtStatus, debtZero]

/-- Claim C3 (amended): after every recordPayment the debt satisfies
remaining = amount − paid unconditionally; and whenever the debt's paid
amount was non-negative and the payment amount positive — in particular on
every state reachable by positive payments — the resulting status equals
the spec's pure function of (paid, amount).  (For non-positive payment
amounts, which addPayment accepts, the status can diverge, see the
counterexample.) -/
theorem paymentAccountingInvariant (d : Debt) (payment : PaymentInput)
    (newPaymentId : String) :
    (applyPayment d payment newPaymentId).remaining
      = (applyPayment d payment newPaymentId).amount
        - (applyPayment d payment newPaymentId).paid
    ∧ (0 ≤ d.paid → 0 < payment.amount →
        (applyPayment d payment newPaymentId).status
          = specDebtStatus (d.paid + payment.amount) d.amount) := by
  constructor
  · simp [applyPayment]
  · intro h1 h2
    simp only [applyPayment, specDebtStatus]
    split_ifs <;> first | rfl | linarith

/-- Witness for paymentAccountingInvariant: a payment of 4 on debtZero. -/
theorem paymentAccountingInvariantWitness :
    ((0 : Rat) ≤ debtZero.paid ∧
      (0 : Rat) < (PaymentInput.mk 4 "cash").amount)
    ∧ (applyPayment debtZero (PaymentInput.mk 4 "cash") "p1").status
        = specDebtStatus (debtZero.paid + (PaymentInput.mk 4 "cash").amount)
            debtZero.amount := by
  refine ⟨⟨by norm_num [debtZero], by norm_num⟩, ?_⟩
  exact (paymentAccountingInvariant debtZero (PaymentInput.mk 4 "cash") "p1").2
    (by norm_num [debtZero]) (by norm_num)

/-- Claim C4 (counterexample): recordPayment does not reject a payment of
−5 on a fresh debt of 10: the debt is changed — paid becomes −5 and a
payment record is appended — where the claim requires failure with the debt
left untouched. -/
theorem nonpositivePaymentAccepted :
    addPayment [debtTen] "d2" { amount := -5, paymentMethod := "cash" } "p1"
      ≠ [debtTen]
    ∧ (addPayment [debtTen] "d2" { amount := -5, paymentMethod := "cash" }
        "p1").map (fun d => (d.paid, d.payments.length)) = [(-5, 1)] := by
  refine ⟨?_, by norm_num [addPayment, applyPayment, debtTen]⟩
  intro he
  have h2 := congrArg (List.map fun d => d.payments.length) he
  simp [addPayment, applyPayment, debtTen] at h2

/-- Claim C4 (amended): the store-level recordPayment (addPayment) performs
no amount validation: for every payment amount ≤ 0 it still mutates the
debt, setting paid to paid + amount and appending a payment record.  (The
only amount ≤ 0 guard in the code is the Debts page's UI handler, which
rejects before reaching the store.) -/
theorem addPaymentNoValidation (d : Debt) (payment : PaymentInput)
    (newPaymentId : String) (_h : payment.amount ≤ 0) :
    applyPayment d payment newPaymentId ≠ d
    ∧ (applyPayment d payment newPaymentId).paid = d.paid + payment.amount
    ∧ (applyPayment d payment newPaymentId).payments
        = d.payments ++
          [{ id := newPaymentId, debtId := d.id, amount := payment.amount,
             paymentMethod := payment.paymentMethod }] := by
  refine ⟨?_, by simp [applyPayment], by simp [applyPayment]⟩
  intro he
  have h2 := congrArg (fun x => x.payments.length) he
  simp [applyPayment] at h2

/-- Witness for addPaymentNoValidation: the −5 payment on debtTen. -/
theorem addPaymentNoValidationWitness :
    ((PaymentInput.mk (-5) "cash").amount ≤ 0)
    ∧ (applyPayment debtTen (PaymentInput.mk (-5) "cash") "p1" ≠ debtTen
      ∧ (applyPayment debtTen (PaymentInput.mk (-5) "cash") "p1").paid
          = debtTen.paid + (PaymentInput.mk (-5) "cash").amount
      ∧ (applyPayment debtTen (PaymentInput.mk (-5) "cash") "p1").payments
          = debtTen.payments ++
            [{ id := "p1", debtId := debtTen.id,
               amount := (PaymentInput.mk (-5) "cash").amount,
               paymentMethod := (PaymentInput.mk (-5) "cash").paymentMethod }]) := by
  exact ⟨by norm_num,
    addPaymentNoValidation debtTen (PaymentInput.mk (-5) "cash") "p1" (by norm_num)⟩

/-- Claim C5: addLine (addProductToCart, whose requested quantity is always
1, matching the spec's addLine(product, qty=1)) fails with InsufficientStock
whenever the existing cart quantity for the product plus the requested 1
exceeds the product's quantity on hand; the error return leaves the cart
unchanged (the handler returns before calling addToCart). -/
theorem addLineInsufficientStockFails (cart : List SaleItem) (product : Product)
    (newLineId : String)
    (h : product.quantity <
      ((cart.find? fun i => i.productId = product.id).map SaleItem.quantity).getD 0
        + 1) :
    addProductToCart cart product newLineId
      = .error .insufficientStock := by
  by_cases hq : product.quantity ≤ 0
  · simp [addProductToCart, hq]
  · cases hfind : cart.find? fun i => i.productId = product.id with
    | none =>
        exfalso
        rw [hfind] at h
        simp only [Option.map_none', Option.getD_none] at h
        omega
    | some e =>
        rw [hfind] at h
        simp only [Option.map_some', Option.getD_some] at h
        simp only [addProductToCart, hfind, if_neg hq]
        rw [if_pos (by omega : e.quantity ≥ product.quantity)]

/-- Witness for addLineInsufficientStockFails: an empty cart and an
out-of-stock product. -/
theorem addLineInsufficientStockFailsWitness :
    (zeroQtyProduct.quantity <
      ((([] : List SaleItem).find? fun i => i.productId = zeroQtyProduct.id).map
        SaleItem.quantity).getD 0 + 1)
    ∧ addProductToCart [] zeroQtyProduct "l0" = .error .insufficientStock := by
  exact ⟨by decide, addLineInsufficientStockFails [] zeroQtyProduct "l0" (by decide)⟩

/-- Claim C6: updateLine (updateQuantity with newQty = current + delta), for
a line present in the cart and a product present in the store: newQty ≤ 0
removes the line; otherwise newQty above the quantity on hand fails with
InsufficientStock leaving the cart unchanged; otherwise the line's quantity
is replaced and its total recomputed as newQty × unit price (updateCartItem). -/
theorem updateLineCases (cart : List SaleItem) (products : List Product)
    (productId : String) (delta : Int) (item : SaleItem) (product : Product)
    (hitem : cart.find? (fun i => i.productId = productId) = some item)
    (hprod : products.find? (fun p => p.id = productId) = some product) :
    (item.quantity + delta ≤ 0 →
      updateQuantity cart products productId delta
        = .ok (removeFromCart cart productId))
    ∧ (0 < item.quantity + delta → product.quantity < item.quantity + delta →
      updateQuantity cart products productId delta = .error .insufficientStock)
    ∧ (0 < item.quantity + delta → item.quantity + delta ≤ product.quantity →
      updateQuantity cart products productId delta
        = .ok (updateCartItem cart productId (item.quantity + delta))) := by
  refine ⟨?_, ?_, ?_⟩
  · intro h1
    simp only [updateQuantity, hitem, hprod]
    rw [if_pos h1]
  · intro h1 h2
    simp only [updateQuantity, hitem, hprod]
    rw [if_neg (by omega), if_pos (by omega)]
  · intro h1 h2
    simp only [updateQuantity, hitem, hprod]
    rw [if_neg (by omega), if_neg (by omega)]

/-- Witness for updateLineCases: the two-unit line for product A with
delta −2, which lands in the removal case. -/
theorem updateLineCasesWitness :
    ([lineA].find? (fun i => i.productId = "A") = some lineA)
    ∧ ([productA].find? (fun p => p.id = "A") = some productA)
    ∧ ((lineA.quantity + -2 ≤ 0 →
        updateQuantity [lineA] [productA] "A" (-2)
          = .ok (removeFromCart [lineA] "A"))
      ∧ (0 < lineA.quantity + -2 → productA.quantity < lineA.quantity + -2 →
        updateQuantity [lineA] [productA] "A" (-2) = .error .insufficientStock)
      ∧ (0 < lineA.quantity + -2 → lineA.quantity + -2 ≤ productA.quantity →
        updateQuantity [lineA] [productA] "A" (-2)
          = .ok (updateCartItem [lineA] "A" (lineA.quantity + -2)))) := by
  exact ⟨by decide, by decide,
    updateLineCases [lineA] [productA] "A" (-2) lineA productA (by decide) (by decide)⟩

/-- cancelSale only maps statuses, so it preserves the number of sales. -/
theorem cancelSale_length (sales : List Sale) (id : String) :
    (cancelSale sales id).length = sales.length := by
  simp [cancelSale]

/-- addSale prepends exactly one sale. -/
theorem addSale_sales_length (sales : List Sale) (products : List Product)
    (newSaleId : String) (year month : Nat) (sale : SaleData) :
    (addSale sales products newSaleId year month sale).1.length
      = sales.length + 1 := by
  simp [addSale]

/-- Every invoice sequence number emitted from a state with n sales is at
least n + 1. -/
theorem runSalesOps_lowerBound (ops : List SalesOp) :
    ∀ (sales : List Sale) (products : List Product),
    ∀ x ∈ runSalesOps sales products ops, sales.length + 1 ≤ x := by
  induction ops with
  | nil =>
      intro sales products x hx
      simp [runSalesOps] at hx
  | cons op rest ih =>
      intro sales products x hx
      cases op with
      | commit data newSaleId year month =>
          simp only [runSalesOps, List.mem_cons] at hx
          rcases hx with rfl | hx
          · simp [invoiceSeqComponent]
          · have hle := ih _ _ x hx
            rw [addSale_sales_length] at hle
            omega
      | cancel saleId =>
          simp only [runSalesOps] at hx
          have hle := ih _ _ x hx
          rw [cancelSale_length] at hle
          omega

/-- Claim C8: along any sequence of commits and cancellations, the numeric
sequence components of the generated invoice numbers (the count that
generateInvoiceNumber zero-pads into INV-{year}{month}-{seq}) are strictly
increasing: each commit emits sales.length + 1 counting every sale ever
created — cancelled ones stay in the list with status cancelled — and the
count never resets, whatever year/month values the commits carry. -/
theorem invoiceSequenceStrictMono (sales : List Sale) (products : List Product)
    (ops : List SalesOp) :
    List.Pairwise (· < ·) (runSalesOps sales products ops) := by
  induction ops generalizing sales products with
  | nil => simp [runSalesOps]
  | cons op rest ih =>
      cases op with
      | commit data newSaleId year month =>
          simp only [runSalesOps]
          refine List.Pairwise.cons ?_ (ih _ _)
          intro y hy
          have hle := runSalesOps_lowerBound rest _ _ y hy
          rw [addSale_sales_length] at hle
          simp only [invoiceSeqComponent]
          omega
      | cancel saleId =>
          simp only [runSalesOps]
          exact ih _ _

/-- getCartTotal is the sum of the line totals. -/
theorem getCartTotal_eq_sum (cart : List SaleItem) :
    getCartTotal cart = (cart.map SaleItem.total).sum := by
  suffices h : ∀ a : Rat, cart.foldl (fun total item => total + item.total) a
      = a + (cart.map SaleItem.total).sum by
    simpa [getCartTotal] using h 0
  induction cart with
  | nil => intro a; simp
  | cons i rest ih =>
      intro a
      simp [List.foldl, ih, add_assoc]

/-- addToCart preserves well-formed line totals when the incoming item is
well formed: the merge branch recomputes the total, the append branch keeps
the incoming item. -/
theorem addToCart_lineInv (cart : List SaleItem) (item : SaleItem)
    (hc : ∀ i ∈ cart, lineInv i) (hi : lineInv item) :
    ∀ j ∈ addToCart cart item, lineInv j := by
  intro j hj
  cases hfind : cart.find? (fun i => i.productId = item.productId) with
  | some e =>
      simp only [addToCart, hfind, List.mem_map] at hj
      rcases hj with ⟨i, hmem, rfl⟩
      by_cases h : i.productId = item.productId
      · simp only [if_pos h, lineInv]
      · simp only [if_neg h]
        exact hc i hmem
  | none =>
      simp only [addToCart, hfind, List.mem_append, List.mem_singleton] at hj
      rcases hj with hj | rfl
      · exact hc j hj
      · exact hi

/-- updateCartItem preserves well-formed line totals: the touched line's
total is recomputed, the others are untouched. -/
theorem updateCartItem_lineInv (cart : List SaleItem) (productId : String)
    (q : Int) (hc : ∀ i ∈ cart, lineInv i) :
    ∀ j ∈ updateCartItem cart productId q, lineInv j := by
  intro j hj
  simp only [updateCartItem, List.mem_map] at hj
  rcases hj with ⟨i, hmem, rfl⟩
  by_cases h : i.productId = productId
  · simp only [if_pos h, lineInv]
  · simp only [if_neg h]
    exact hc i hmem

/-- removeFromCart preserves well-formed line totals. -/
theorem removeFromCart_lineInv (cart : List SaleItem) (productId : String)
    (hc : ∀ i ∈ cart, lineInv i) :
    ∀ j ∈ removeFromCart cart productId, lineInv j := by
  intro j hj
  exact hc j (List.mem_of_mem_filter hj)

/-- Any run of cart-store operations preserves well-formed line totals,
provided every item handed to addToCart is well formed. -/
theorem runCartOps_lineInv (ops : List CartOp) :
    ∀ cart : List SaleItem, (∀ i ∈ cart, lineInv i) →
      (∀ item, CartOp.add item ∈ ops → lineInv item) →
      ∀ i ∈ runCartOps cart ops, lineInv i := by
  induction ops with
  | nil =>
      intro cart hc _ i hi
      simp only [runCartOps] at hi
      exact hc i hi
  | cons op rest ih =>
      intro cart hc hops i hi
      cases op with
      | add item =>
          simp only [runCartOps] at hi
          exact ih (addToCart cart item)
            (addToCart_lineInv cart item hc (hops item (List.mem_cons_self _ _)))
            (fun it hmem => hops it (List.mem_cons_of_mem _ hmem)) i hi
      | update productId q =>
          simp only [runCartOps] at hi
          exact ih (updateCartItem cart productId q)
            (updateCartItem_lineInv cart productId q hc)
            (fun it hmem => hops it (List.mem_cons_of_mem _ hmem)) i hi
      | remove productId =>
          simp only [runCartOps] at hi
          exact ih (removeFromCart cart productId)
            (removeFromCart_lineInv cart productId hc)
            (fun it hmem => hops it (List.mem_cons_of_mem _ hmem)) i hi

/-- Claim C10: starting from the empty cart, if every item handed to
addToCart satisfies total = quantity × unitPrice, then after any sequence
of addToCart/updateCartItem/removeFromCart operations every line still
satisfies it, and getCartTotal is the sum over the lines of
quantity × unitPrice. -/
theorem cartTotalInvariant (ops : List CartOp)
    (hadd : ∀ item, CartOp.add item ∈ ops → lineInv item) :
    (∀ i ∈ runCartOps [] ops, lineInv i)
    ∧ getCartTotal (runCartOps [] ops)
        = ((runCartOps [] ops).map fun i => (i.quantity : Rat) * i.unitPrice).sum := by
  have hinv := runCartOps_lineInv ops [] (by simp) hadd
  refine ⟨hinv, ?_⟩
  rw [getCartTotal_eq_sum]
  congr 1
  exact List.map_congr_left fun i hi => hinv i hi

/-- Witness for cartTotalInvariant: the single operation adding lineA,
whose total 20 is 2 × 10. -/
theorem cartTotalInvariantWitness :
    (∀ item, CartOp.add item ∈ [CartOp.add lineA] → lineInv item)
    ∧ ((∀ i ∈ runCartOps [] [CartOp.add lineA], lineInv i)
      ∧ getCartTotal (runCartOps [] [CartOp.add lineA])
          = ((runCartOps [] [CartOp.add lineA]).map
              fun i => (i.quantity : Rat) * i.unitPrice).sum) := by
  have h : ∀ item, CartOp.add item ∈ [CartOp.add lineA] → lineInv item := by
    intro item hmem
    simp only [List.mem_singleton] at hmem
    injection hmem with h2
    subst h2
    norm_num [lineInv, lineA]
  exact ⟨h, cartTotalInvariant [CartOp.add lineA] h⟩

end StockApp
